import Mathlib

/-!
Verification of `addon/pyUtils/exports/export_list.py` (thermopack).

The Python module keeps a global list `exports` of export declarations
(dicts with keys `method`, `module`, `isBindC`), resolves each declaration
to a compiler-mangled symbol name (`get_export_statement`), and emits
linker-specific manifest files (`write_def_file`), with a provenance
header (`get_export_header`) and an optional footer (`get_export_footer`).

The embedding below translates each Python function into a Lean function.
Compiler and linker identities are integer constants in the source
(`GNU = 1`, ..., `LD_MSVC = 3`) and are modelled as `Nat` constants, so
that behaviour on identities outside the recognized sets is expressible.
The call `datetime.today().isoformat()` reads the clock; it is modelled
as an explicit string parameter `now`.  Writing to a file is modelled by
returning the list of written lines / the written byte content.
-/

/-- One export declaration: the Python dict
`{'method': ..., 'module': ..., 'isBindC': ...}` built by `append_export`. -/
structure ExportInfo where
  method : String
  module : Option String
  isBindC : Bool
deriving DecidableEq, Repr

/-- `GNU = 1` (source line 222). -/
def GNU : Nat := 1

/-- `IFORT = 2`. -/
def IFORT : Nat := 2

/-- `PGF90 = 3`. -/
def PGF90 : Nat := 3

/-- `GENERIC = 4`. -/
def GENERIC : Nat := 4

/-- `LD_GCC = 1`. -/
def LD_GCC : Nat := 1

/-- `LD_CLANG = 2`. -/
def LD_CLANG : Nat := 2

/-- `LD_MSVC = 3`. -/
def LD_MSVC : Nat := 3

/-- Python `get_export_statement(compiler, export_info)`.
The local `export_statement` starts as `""` and is only assigned in the
branches shown in the source; a compiler identity that matches no branch
leaves it at `""`. -/
def get_export_statement (compiler : Nat) (export_info : ExportInfo) : String :=
  match export_info.module with
  | none =>
    if export_info.isBindC then
      export_info.method
    else
      export_info.method ++ "_"
  | some m =>
    if compiler = GNU then
      "__" ++ m ++ "_MOD_" ++ export_info.method
    else if compiler = IFORT then
      m ++ "_mp_" ++ export_info.method ++ "_"
    else if compiler = PGF90 then
      m ++ "_" ++ export_info.method ++ "_"
    else if compiler = GENERIC then
      "*" ++ export_info.method ++ "*"
    else
      ""

/-- Python `get_export_header(linker)`.  `datetime.today().isoformat()`
is the parameter `now`.  A linker identity matching no branch leaves the
header at the two comment lines. -/
def get_export_header (linker : Nat) (now : String) : String :=
  let header := "# File generated by thermopack/addon/pyUtils/exports/export_list.py"
  let header := header ++ ("\n# Time stamp: " ++ now)
  if linker = LD_GCC then
    header ++ "\nlibthermopack \x7b\n# Explicit list of symbols to be exported\n  global:"
  else if linker = LD_CLANG then
    header ++ "\n# Explicit list of symbols to be exported"
  else if linker = LD_MSVC then
    header ++ "\n; @NAME@.def : Declares the module parameters.\n\nLIBRARY\n\nEXPORTS"
  else
    header

/-- Python `get_export_footer(linker)`: `None` except for `LD_GCC`. -/
def get_export_footer (linker : Nat) : Option String :=
  if linker = LD_GCC then
    some "\n  local: *;      # hide everything else\n\x7d;"
  else
    none

/-- The body lines appended by the loop
`for i in range(len(exports))` in `write_def_file`: for each index the
resolved statement is decorated per linker; a linker matching no branch
appends nothing. -/
def manifest_body (compiler linker : Nat) (st : List ExportInfo) : List String :=
  (List.range st.length).filterMap (fun i =>
    let s := get_export_statement compiler (st.getD i ⟨"", none, false⟩)
    if linker = LD_GCC then
      some ("\t" ++ s ++ ";")
    else if linker = LD_CLANG ∨ linker = LD_MSVC then
      some ("\t" ++ s)
    else
      none)

/-- The footer lines appended by `write_def_file`
(`if footer is not None: lines.append(footer)`). -/
def footer_lines (linker : Nat) : List String :=
  match get_export_footer linker with
  | some f => [f]
  | none => []

/-- The full `lines` list built by Python `write_def_file` before writing. -/
def write_def_lines (compiler linker : Nat) (now : String) (st : List ExportInfo) :
    List String :=
  get_export_header linker now :: manifest_body compiler linker st ++ footer_lines linker

/-- The byte content written by the loop
`for line in lines: f.write(line); f.write("\n")`. -/
def content_of_lines : List String → String
  | [] => ""
  | l :: ls => (l ++ "\n") ++ content_of_lines ls

/-- The content of the file written by `write_def_file`. -/
def write_def_content (compiler linker : Nat) (now : String) (st : List ExportInfo) :
    String :=
  content_of_lines (write_def_lines compiler linker now st)

/-- Python `write_def_file(compiler, linker, filename)` reads the global
registry `exports`; the embedding threads the registry state explicitly:
the result is the written file content together with the value of the
global `exports` after the call. -/
def write_def_file (compiler linker : Nat) (now : String) (st : List ExportInfo) :
    String × List ExportInfo :=
  (write_def_content compiler linker now st, st)

/-- Python `append_export(method, module=None, isBindC=False)`:
`exports.append({'method': method, 'module': module, 'isBindC': isBindC})`. -/
def append_export (method : String) (module : Option String) (isBindC : Bool)
    (st : List ExportInfo) : List ExportInfo :=
  st ++ [⟨method, module, isBindC⟩]

/-- The arguments of the `append_export` calls at module scope, in source
order (defaults expanded: missing `module` is `none`, missing `isBindC`
is `false`). -/
def export_data : List (String × Option String × Bool) :=
  [("thermopack_init_c", none, true),
   ("thermopack_init_c", none, true),
   ("thermopack_pressure_c", none, true),
   ("thermopack_specific_volume_c", none, true),
   ("thermopack_tpflash_c", none, true),
   ("thermopack_uvflash_c", none, true),
   ("thermopack_hpflash_c", none, true),
   ("thermopack_spflash_c", none, true),
   ("thermopack_bubt_c", none, true),
   ("thermopack_bubp_c", none, true),
   ("thermopack_dewt_c", none, true),
   ("thermopack_dewp_c", none, true),
   ("thermopack_zfac_c", none, true),
   ("thermopack_enthalpy_c", none, true),
   ("thermopack_entropy_c", none, true),
   ("thermopack_wilsonk_c", none, true),
   ("thermopack_wilsonki_c", none, true),
   ("thermopack_getcriticalparam_c", none, true),
   ("thermopack_moleweight_c", none, true),
   ("thermopack_compmoleweight_c", none, true),
   ("thermopack_puresat_t_c", none, true),
   ("thermopack_entropy_tv_c", none, true),
   ("thermopack_twophase_dhdt_c", none, true),
   ("thermopack_guess_phase_c", none, true),
   ("thermopack_thermo_c", none, true),
   ("get_phase_flags_c", none, true),
   ("thermopack_getkij", none, false),
   ("thermopack_setkijandji", none, false),
   ("thermopack_gethvparam", none, false),
   ("thermopack_sethvparam", none, false),
   ("thermopack_get_volume_shift_parameters", none, false),
   ("thermopack_set_volume_shift_parameters", none, false),
   ("get_bp_term", some "binaryplot", false),
   ("vllebinaryxy", some "binaryplot", false),
   ("global_binary_plot", some "binaryplot", false),
   ("comp_index_active", some "compdata", false),
   ("comp_name_active", some "compdata", false),
   ("calccriticaltv", some "critical", false),
   ("specificvolume", some "eos", false),
   ("zfac", some "eos", false),
   ("thermo", some "eos", false),
   ("entropy", some "eos", false),
   ("enthalpy", some "eos", false),
   ("compmoleweight", some "eos", false),
   ("idealenthalpysingle", some "eos", false),
   ("init_thermo", some "eoslibinit", false),
   ("init_cubic", some "eoslibinit", false),
   ("init_cpa", some "eoslibinit", false),
   ("init_pcsaft", some "eoslibinit", false),
   ("init_saftvrmie", some "eoslibinit", false),
   ("init_quantum_cubic", some "eoslibinit", false),
   ("init_tcpr", some "eoslibinit", false),
   ("init_quantum_saftvrmie", some "eoslibinit", false),
   ("init_extcsp", some "eoslibinit", false),
   ("init_lee_kesler", some "eoslibinit", false),
   ("init_multiparameter", some "eoslibinit", false),
   ("init_pets", some "eoslibinit", false),
   ("init_volume_translation", some "eoslibinit", false),
   ("redefine_critical_parameters", some "eoslibinit", false),
   ("internal_energy", some "eostv", false),
   ("entropytv", some "eostv", false),
   ("pressure", some "eostv", false),
   ("thermotv", some "eostv", false),
   ("enthalpytv", some "eostv", false),
   ("free_energy", some "eostv", false),
   ("chemical_potential", some "eostv", false),
   ("virial_coefficients", some "eostv", false),
   ("secondvirialcoeffmatrix", some "eostv", false),
   ("binarythirdvirialcoeffmatrix", some "eostv", false),
   ("isobar", some "isolines", false),
   ("isotherm", some "isolines", false),
   ("isenthalp", some "isolines", false),
   ("isentrope", some "isolines", false),
   ("setphtolerance", some "ph_solver", false),
   ("twophasephflash", some "ph_solver", false),
   ("twophasepsflash", some "ps_solver", false),
   ("get_saftvrmie_eps_kij", some "saftvrmie_containers", false),
   ("set_saftvrmie_eps_kij", some "saftvrmie_containers", false),
   ("get_saftvrmie_sigma_lij", some "saftvrmie_containers", false),
   ("set_saftvrmie_sigma_lij", some "saftvrmie_containers", false),
   ("get_saftvrmie_lr_gammaij", some "saftvrmie_containers", false),
   ("set_saftvrmie_lr_gammaij", some "saftvrmie_containers", false),
   ("get_saftvrmie_pure_fluid_param", some "saftvrmie_containers", false),
   ("set_saftvrmie_pure_fluid_param", some "saftvrmie_containers", false),
   ("cpa_get_kij", some "saft_interface", false),
   ("cpa_set_kij", some "saft_interface", false),
   ("pc_saft_get_kij", some "saft_interface", false),
   ("pc_saft_set_kij_asym", some "saft_interface", false),
   ("enable_hs", some "saftvrmie_options", false),
   ("enable_a1", some "saftvrmie_options", false),
   ("enable_a2", some "saftvrmie_options", false),
   ("enable_a3", some "saftvrmie_options", false),
   ("enable_chain", some "saftvrmie_options", false),
   ("safe_bubt", some "saturation", false),
   ("safe_bubp", some "saturation", false),
   ("safe_dewt", some "saturation", false),
   ("safe_dewp", some "saturation", false),
   ("envelopeplot", some "saturation_curve", false),
   ("solid_init", some "solideos", false),
   ("solidenvelopeplot", some "solid_saturation", false),
   ("sound_velocity_2ph", some "speed_of_sound", false),
   ("guessphase", some "thermo_utils", false),
   ("rgas", some "thermopack_constants", false),
   ("tptmin", some "thermopack_constants", false),
   ("tppmin", some "thermopack_constants", false),
   ("add_eos", some "thermopack_var", false),
   ("delete_eos", some "thermopack_var", false),
   ("activate_model", some "thermopack_var", false),
   ("get_eos_identification", some "thermopack_var", false),
   ("twophasetpflash", some "tp_solver", false),
   ("twophasesvflash", some "sv_solver", false),
   ("twophaseuvflash", some "uv_solver", false)]

/-- The global registry `exports`: the result of running all the
module-scope `append_export` calls, in order, on the initial `[]`. -/
def exports : List ExportInfo :=
  export_data.foldl (fun st e => append_export e.1 e.2.1 e.2.2 st) []

/-- The `__main__` block: the three `write_def_file` calls, as
(path, written content) pairs, in order. -/
def main_run (now : String) : List (String × String) :=
  [("libthermopack_export.version", (write_def_file GENERIC LD_GCC now exports).fst),
   ("libthermopack_export.symbols", (write_def_file GENERIC LD_CLANG now exports).fst),
   ("thermopack.def", (write_def_file IFORT LD_MSVC now exports).fst)]

/-! ### Helper lemmas (shared) -/

theorem string_append_empty (s : String) : s ++ "" = s := by
  cases s
  simp [String.ext_iff]

theorem string_empty_append (s : String) : "" ++ s = s := by
  cases s
  simp [String.ext_iff]

theorem range_getD (l : List ExportInfo) (d : ExportInfo) :
    (List.range l.length).map (fun i => l.getD i d) = l := by
  induction l with
  | nil => rfl
  | cons a t ih =>
    show (List.range (t.length + 1)).map (fun i => (a :: t).getD i d) = a :: t
    rw [List.range_succ_eq_map, List.map_cons, List.map_map]
    refine congrArg (a :: ·) ?_
    exact ih

theorem filterMap_some_eq_map {α β : Type} (g : α → β) (l : List α) :
    l.filterMap (fun a => some (g a)) = l.map g := by
  induction l with
  | nil => rfl
  | cons a t ih => simp [List.filterMap_cons, ih]

theorem manifest_body_eq (compiler linker : Nat) (st : List ExportInfo) :
    manifest_body compiler linker st =
      st.filterMap (fun e =>
        let s := get_export_statement compiler e
        if linker = LD_GCC then
          some ("\t" ++ s ++ ";")
        else if linker = LD_CLANG ∨ linker = LD_MSVC then
          some ("\t" ++ s)
        else
          none) := by
  conv_rhs =>
    rw [show st = (List.range st.length).map (fun i => st.getD i ⟨"", none, false⟩) from
      (range_getD st ⟨"", none, false⟩).symm]
  rw [List.filterMap_map]
  rfl

theorem manifest_body_gcc (compiler : Nat) (st : List ExportInfo) :
    manifest_body compiler LD_GCC st =
      st.map (fun e => "\t" ++ get_export_statement compiler e ++ ";") := by
  rw [manifest_body_eq]
  exact filterMap_some_eq_map _ st

theorem manifest_body_clang (compiler : Nat) (st : List ExportInfo) :
    manifest_body compiler LD_CLANG st =
      st.map (fun e => "\t" ++ get_export_statement compiler e) := by
  rw [manifest_body_eq]
  exact filterMap_some_eq_map _ st

theorem manifest_body_msvc (compiler : Nat) (st : List ExportInfo) :
    manifest_body compiler LD_MSVC st =
      st.map (fun e => "\t" ++ get_export_statement compiler e) := by
  rw [manifest_body_eq]
  exact filterMap_some_eq_map _ st

theorem manifest_body_other (compiler linker : Nat) (st : List ExportInfo)
    (h1 : linker ≠ LD_GCC) (h2 : linker ≠ LD_CLANG) (h3 : linker ≠ LD_MSVC) :
    manifest_body compiler linker st = [] := by
  rw [manifest_body_eq]
  have hnone : ∀ e : ExportInfo,
      (let s := get_export_statement compiler e
       if linker = LD_GCC then some ("\t" ++ s ++ ";")
       else if linker = LD_CLANG ∨ linker = LD_MSVC then some ("\t" ++ s)
       else none) = (none : Option String) := by
    intro e
    simp only
    rw [if_neg h1, if_neg (by rintro (h | h) <;> [exact h2 h; exact h3 h])]
  induction st with
  | nil => rfl
  | cons a t ih => rw [List.filterMap_cons, hnone a, ih]

theorem content_concat (L : List String) (x : String) :
    content_of_lines (L ++ [x]) = content_of_lines L ++ (x ++ "\n") := by
  induction L with
  | nil =>
    show (x ++ "\n") ++ "" = "" ++ (x ++ "\n")
    rw [string_append_empty, string_empty_append]
  | cons l ls ih =>
    show (l ++ "\n") ++ content_of_lines (ls ++ [x])
      = ((l ++ "\n") ++ content_of_lines ls) ++ (x ++ "\n")
    rw [ih]
    simp only [String.append_assoc]

/-- The linker-specific tail appended to the provenance header. -/
def header_tail (linker : Nat) : String :=
  if linker = LD_GCC then
    "\nlibthermopack \x7b\n# Explicit list of symbols to be exported\n  global:"
  else if linker = LD_CLANG then
    "\n# Explicit list of symbols to be exported"
  else if linker = LD_MSVC then
    "\n; @NAME@.def : Declares the module parameters.\n\nLIBRARY\n\nEXPORTS"
  else
    ""

theorem header_factor (linker : Nat) (now : String) :
    get_export_header linker now =
      ("# File generated by thermopack/addon/pyUtils/exports/export_list.py\n# Time stamp: "
        ++ now) ++ header_tail linker := by
  unfold get_export_header header_tail
  have hbase :
      "# File generated by thermopack/addon/pyUtils/exports/export_list.py"
        ++ ("\n# Time stamp: " ++ now)
      = "# File generated by thermopack/addon/pyUtils/exports/export_list.py\n# Time stamp: "
        ++ now := by
    rw [← String.append_assoc]
    rfl
  by_cases h1 : linker = LD_GCC
  · rw [if_pos h1, if_pos h1, hbase]
  · rw [if_neg h1, if_neg h1]
    by_cases h2 : linker = LD_CLANG
    · rw [if_pos h2, if_pos h2, hbase]
    · rw [if_neg h2, if_neg h2]
      by_cases h3 : linker = LD_MSVC
      · rw [if_pos h3, if_pos h3, hbase]
      · rw [if_neg h3, if_neg h3, hbase, string_append_empty]

/-! ### Claim theorems -/

/-- C1: for every export declaration with `module_name` present, the
resolver returns exactly the compiler-specific form — GNU gives
`"__" + module + "_MOD_" + method`, IFORT gives `module + "_mp_" + method + "_"`,
PGF90 gives `module + "_" + method + "_"`, GENERIC gives `"*" + method + "*"`
(ignoring the module name and the `isBindC` flag entirely); in particular
for module `"eos"` and symbol `"zfac"` the four results are
`__eos_MOD_zfac`, `eos_mp_zfac_`, `eos_zfac_` and `*zfac*`. -/
theorem module_mangling_rules (m meth : String) (b : Bool) :
    get_export_statement GNU ⟨meth, some m, b⟩ = "__" ++ m ++ "_MOD_" ++ meth ∧
    get_export_statement IFORT ⟨meth, some m, b⟩ = m ++ "_mp_" ++ meth ++ "_" ∧
    get_export_statement PGF90 ⟨meth, some m, b⟩ = m ++ "_" ++ meth ++ "_" ∧
    get_export_statement GENERIC ⟨meth, some m, b⟩ = "*" ++ meth ++ "*" ∧
    get_export_statement GNU ⟨"zfac", some "eos", false⟩ = "__eos_MOD_zfac" ∧
    get_export_statement IFORT ⟨"zfac", some "eos", false⟩ = "eos_mp_zfac_" ∧
    get_export_statement PGF90 ⟨"zfac", some "eos", false⟩ = "eos_zfac_" ∧
    get_export_statement GENERIC ⟨"zfac", some "eos", false⟩ = "*zfac*" :=
  ⟨rfl, rfl, rfl, rfl, rfl, rfl, rfl, rfl⟩

/-- C2: for every export declaration with `module_name` absent and every
compiler identity (recognized or not — the resolver never inspects the
compiler in this case), the resolved name is the bare symbol name when
`isBindC` is true and the symbol name plus a trailing underscore when
`isBindC` is false. -/
theorem flat_symbol_rules (compiler : Nat) (meth : String) :
    get_export_statement compiler ⟨meth, none, true⟩ = meth ∧
    get_export_statement compiler ⟨meth, none, false⟩ = meth ++ "_" :=
  ⟨rfl, rfl⟩

/-- C10: whenever `module_name` is present, the resolver's result is
independent of the `isBindC` flag for every compiler identity: two
declarations differing only in that flag resolve identically, so a
contract-violating (module present, `isBindC` true) declaration is
silently module-mangled (e.g. GNU still produces the `__module_MOD_`
form) rather than treated specially. -/
theorem module_mangling_ignores_bindc (compiler : Nat) (meth m : String) (b1 b2 : Bool) :
    get_export_statement compiler ⟨meth, some m, b1⟩
      = get_export_statement compiler ⟨meth, some m, b2⟩ ∧
    get_export_statement GNU ⟨meth, some m, true⟩ = "__" ++ m ++ "_MOD_" ++ meth :=
  ⟨rfl, rfl⟩

/-- C4 counterexample: a declaration with `module` present and `isBindC`
true is silently accepted by `append_export` — the registry does contain
it after registration, refuting the claim that such a declaration is
rejected at registration time. -/
theorem module_bindc_accepted :
    append_export "x" (some "m") true [] = [⟨"x", some "m", true⟩] ∧
    (⟨"x", some "m", true⟩ : ExportInfo) ∈ append_export "x" (some "m") true [] :=
  ⟨rfl, by decide⟩

set_option maxRecDepth 8000 in
/-- C4 amended: `append_export` performs no validation at all — every
declaration, including one with `module` present and `isBindC` true, is
silently appended unchanged to the registry (neither rejected nor
coerced); separately, the module's own static registry happens to satisfy
the invariant: every registered declaration with a module has
`isBindC = false`. -/
theorem append_export_no_validation :
    (∀ (meth : String) (mo : Option String) (b : Bool) (st : List ExportInfo),
      append_export meth mo b st = st ++ [⟨meth, mo, b⟩]) ∧
    exports.all (fun e => e.module.isNone || !e.isBindC) = true :=
  ⟨fun _ _ _ _ => rfl, by decide⟩

/-- C3 counterexample: with compiler identity 5 (outside the closed set
{GNU, IFORT, PGF90, GENERIC}) the resolver silently returns the empty
string for a module-qualified declaration and generation with the GCC
linker still produces a complete manifest (with a junk body line
`"\t;"`), and with linker identity 7 (outside {LD_GCC, LD_CLANG,
LD_MSVC}) generation still writes a header-only file — refuting the
claim that the current manifest generation fails fatally and produces no
output. -/
theorem unrecognized_identity_no_failure :
    get_export_statement 5 ⟨"zfac", some "eos", false⟩ = "" ∧
    write_def_lines 5 LD_GCC "T" [⟨"zfac", some "eos", false⟩] =
      [get_export_header LD_GCC "T", "\t;",
       "\n  local: *;      # hide everything else\n\x7d;"] ∧
    (write_def_file 5 LD_GCC "T" [⟨"zfac", some "eos", false⟩]).fst ≠ "" ∧
    write_def_lines GNU 7 "T" [⟨"zfac", some "eos", false⟩] = [get_export_header 7 "T"] :=
  ⟨rfl, rfl, by decide, rfl⟩

/-- C3 amended: identities outside the closed sets are not detected:
for every compiler identity outside {GNU, IFORT, PGF90, GENERIC} the
resolver returns the empty string for every module-present declaration,
and for every linker identity outside {LD_GCC, LD_CLANG, LD_MSVC}
generation silently completes and writes a manifest consisting of the
provenance header only (no body lines, no footer) — a silent fallback,
not a fatal error. -/
theorem unrecognized_identity_silent_fallback
    (compiler linker : Nat) (now meth m : String) (b : Bool) (st : List ExportInfo)
    (hc1 : compiler ≠ GNU) (hc2 : compiler ≠ IFORT)
    (hc3 : compiler ≠ PGF90) (hc4 : compiler ≠ GENERIC)
    (hl1 : linker ≠ LD_GCC) (hl2 : linker ≠ LD_CLANG) (hl3 : linker ≠ LD_MSVC) :
    get_export_statement compiler ⟨meth, some m, b⟩ = "" ∧
    write_def_lines compiler linker now st = [get_export_header linker now] := by
  constructor
  · show (if compiler = GNU then "__" ++ m ++ "_MOD_" ++ meth
      else if compiler = IFORT then m ++ "_mp_" ++ meth ++ "_"
      else if compiler = PGF90 then m ++ "_" ++ meth ++ "_"
      else if compiler = GENERIC then "*" ++ meth ++ "*"
      else "") = ""
    rw [if_neg hc1, if_neg hc2, if_neg hc3, if_neg hc4]
  · unfold write_def_lines
    rw [manifest_body_other compiler linker st hl1 hl2 hl3]
    unfold footer_lines get_export_footer
    rw [if_neg hl1]
    rfl

/-- Witness for the amended C3 theorem at compiler 5 and linker 7. -/
theorem unrecognized_identity_silent_fallback_witness :
    get_export_statement 5 ⟨"a", some "b", false⟩ = "" ∧
    write_def_lines 5 7 "T" [] = [get_export_header 7 "T"] :=
  unrecognized_identity_silent_fallback 5 7 "T" "a" "b" false []
    (by decide) (by decide) (by decide) (by decide)
    (by decide) (by decide) (by decide)

/-- C7: manifest generation is deterministic in (declarations, compiler,
linker) except for the timestamp: the written content is a fixed prefix
ending in `"# Time stamp: "`, then the timestamp string, then a rest that
does not depend on the timestamp — so two runs with identical
declarations, compiler and linker produce byte-identical output apart
from the timestamp line. -/
theorem generation_deterministic_modulo_timestamp
    (compiler linker : Nat) (st : List ExportInfo) :
    ∃ rest : String, ∀ now : String,
      write_def_content compiler linker now st =
        "# File generated by thermopack/addon/pyUtils/exports/export_list.py\n# Time stamp: "
          ++ now ++ rest := by
  refine ⟨header_tail linker
    ++ ("\n" ++ content_of_lines (manifest_body compiler linker st ++ footer_lines linker)),
    fun now => ?_⟩
  show (get_export_header linker now ++ "\n")
      ++ content_of_lines (manifest_body compiler linker st ++ footer_lines linker) = _
  rw [header_factor]
  simp only [String.append_assoc]

/-- C8: the no-argument entry point generates exactly three manifests and
no others — a GENERIC/GCC-ld version script at
`libthermopack_export.version`, a GENERIC/Clang-ld export list at
`libthermopack_export.symbols`, and an IFORT/MSVC module-definition file
at `thermopack.def`, in that order. -/
theorem main_writes_three_manifests (now : String) :
    main_run now =
      [("libthermopack_export.version", (write_def_file GENERIC LD_GCC now exports).fst),
       ("libthermopack_export.symbols", (write_def_file GENERIC LD_CLANG now exports).fst),
       ("thermopack.def", (write_def_file IFORT LD_MSVC now exports).fst)] ∧
    (main_run now).length = 3 ∧
    (main_run now).map Prod.fst =
      ["libthermopack_export.version", "libthermopack_export.symbols", "thermopack.def"] :=
  ⟨rfl, rfl, rfl⟩

/-- C9: generating a manifest never modifies the registry — for every
compiler, linker, timestamp and registry contents, `write_def_file`
returns the registry unchanged, and consequently any sequence of
generation calls, in any order, observes the same registry. -/
theorem generation_preserves_registry :
    (∀ (compiler linker : Nat) (now : String) (st : List ExportInfo),
      (write_def_file compiler linker now st).snd = st) ∧
    (∀ (calls : List (Nat × Nat × String)) (st : List ExportInfo),
      calls.foldl (fun s p => (write_def_file p.1 p.2.1 p.2.2 s).snd) st = st) := by
  refine ⟨fun _ _ _ _ => rfl, fun calls => ?_⟩
  induction calls with
  | nil => intro st; rfl
  | cons c t ih => intro st; exact ih st

/-! ### Substring scanner, for the `local:` claims

`isPre pat l` decides whether `pat` is a prefix of `l`; `hasSub pat l`
decides whether `pat` occurs as a contiguous substring of `l`. -/

def isPre : List Char → List Char → Bool
  | [], _ => true
  | _ :: _, [] => false
  | a :: as, b :: bs => a == b && isPre as bs

def hasSub (pat : List Char) : List Char → Bool
  | [] => pat.isEmpty
  | c :: rest => isPre pat (c :: rest) || hasSub pat rest

/-- The character sequence of the version-script `local:` marker. -/
def locPat : List Char := "local:".data

/-- All suffixes of a list, longest first. -/
def sufs : List Char → List (List Char)
  | [] => [[]]
  | c :: l => (c :: l) :: sufs l

theorem isPre_append_mem (pat : List Char) :
    ∀ (u b : List Char) (c : Char),
      isPre pat (u ++ c :: b) = true → isPre pat u = true ∨ c ∈ pat := by
  induction pat with
  | nil => intro u b c _; exact Or.inl rfl
  | cons p ps ih =>
    intro u b c h
    cases u with
    | nil =>
      simp only [List.nil_append, isPre, Bool.and_eq_true, beq_iff_eq] at h
      right
      rw [← h.1]
      exact List.mem_cons_self p ps
    | cons x us =>
      simp only [List.cons_append, isPre, Bool.and_eq_true] at h
      rcases ih us b c h.2 with h1 | h2
      · left
        simp only [isPre, Bool.and_eq_true]
        exact ⟨h.1, h1⟩
      · exact Or.inr (List.mem_cons_of_mem p h2)

theorem isPre_append_total (pat : List Char) :
    ∀ (u b : List Char),
      isPre pat (u ++ b) = true → isPre pat u = true ∨ isPre u pat = true := by
  induction pat with
  | nil => intro u b _; exact Or.inl rfl
  | cons p ps ih =>
    intro u b h
    cases u with
    | nil => exact Or.inr rfl
    | cons x us =>
      simp only [List.cons_append, isPre, Bool.and_eq_true, beq_iff_eq] at h
      rcases ih us b h.2 with h1 | h2
      · left
        simp only [isPre, Bool.and_eq_true, beq_iff_eq]
        exact ⟨h.1, h1⟩
      · right
        simp only [isPre, Bool.and_eq_true, beq_iff_eq]
        exact ⟨h.1.symm, h2⟩

theorem hasSub_cons_false {pat : List Char} {c : Char} {l : List Char}
    (h : hasSub pat (c :: l) = false) :
    isPre pat (c :: l) = false ∧ hasSub pat l = false := by
  have h' : (isPre pat (c :: l) || hasSub pat l) = false := h
  exact ⟨(Bool.or_eq_false_iff.mp h').1, (Bool.or_eq_false_iff.mp h').2⟩

theorem hasSub_append_sep (pat : List Char) (c : Char) (hc : ¬ c ∈ pat) :
    ∀ (a b : List Char), hasSub pat a = false → hasSub pat (c :: b) = false →
      hasSub pat (a ++ c :: b) = false := by
  intro a
  induction a with
  | nil => intro b _ hb; exact hb
  | cons x a' ih =>
    intro b ha hb
    obtain ⟨h1, h2⟩ := hasSub_cons_false ha
    show (isPre pat (x :: (a' ++ c :: b)) || hasSub pat (a' ++ c :: b)) = false
    rw [ih b h2 hb, Bool.or_false]
    cases hp : isPre pat (x :: (a' ++ c :: b))
    · rfl
    · exfalso
      rcases isPre_append_mem pat (x :: a') b c hp with h3 | h3
      · rw [h1] at h3
        exact Bool.noConfusion h3
      · exact hc h3

theorem hasSub_append_tails (pat : List Char) :
    ∀ (a b : List Char),
      (sufs a).all (fun s => s.isEmpty || !(isPre s pat)) = true →
      hasSub pat a = false → hasSub pat b = false →
      hasSub pat (a ++ b) = false := by
  intro a
  induction a with
  | nil => intro b _ _ hb; exact hb
  | cons x a' ih =>
    intro b hsfx ha hb
    obtain ⟨hp, ha'⟩ := hasSub_cons_false ha
    have hsfx' : ((x :: a').isEmpty || !(isPre (x :: a') pat)) = true ∧
        (sufs a').all (fun s => s.isEmpty || !(isPre s pat)) = true := by
      simpa only [sufs, List.all_cons, Bool.and_eq_true] using hsfx
    show (isPre pat (x :: (a' ++ b)) || hasSub pat (a' ++ b)) = false
    rw [ih b hsfx'.2 ha' hb, Bool.or_false]
    cases hq : isPre pat (x :: (a' ++ b))
    · rfl
    · exfalso
      rcases isPre_append_total pat (x :: a') b hq with h3 | h3
      · rw [hp] at h3
        exact Bool.noConfusion h3
      · have h4 : (!(isPre (x :: a') pat)) = true := by
          simpa only [List.isEmpty, Bool.false_or] using hsfx'.1
        rw [h3] at h4
        exact Bool.noConfusion h4

theorem hasSub_peel (p : Char) (ps : List Char) (c : Char) (l : List Char)
    (hc : (p == c) = false) :
    hasSub (p :: ps) (c :: l) = hasSub (p :: ps) l := by
  show (isPre (p :: ps) (c :: l) || hasSub (p :: ps) l) = hasSub (p :: ps) l
  rw [show isPre (p :: ps) (c :: l) = ((p == c) && isPre ps l) from rfl, hc,
    Bool.false_and, Bool.false_or]

theorem hasSub_peel_all (p : Char) (ps : List Char) :
    ∀ (k r : List Char), k.all (fun c => !(p == c)) = true →
      hasSub (p :: ps) (k ++ r) = hasSub (p :: ps) r := by
  intro k
  induction k with
  | nil => intro r _; rfl
  | cons c k' ih =>
    intro r hk
    have hk' : (!(p == c)) = true ∧ k'.all (fun c => !(p == c)) = true := by
      simpa only [List.all_cons, Bool.and_eq_true] using hk
    show hasSub (p :: ps) (c :: (k' ++ r)) = hasSub (p :: ps) r
    rw [hasSub_peel p ps c (k' ++ r) (by simpa using hk'.1), ih r hk'.2]

theorem locPat_peel_all (k r : List Char)
    (hk : k.all (fun c => !('l' == c)) = true) :
    hasSub locPat (k ++ r) = hasSub locPat r := by
  rw [show locPat = 'l' :: "ocal:".data from rfl]
  exact hasSub_peel_all 'l' "ocal:".data k r hk

/-- A declaration whose symbol name and module name do not contain the
substring `local:`. -/
def export_clean (e : ExportInfo) : Bool :=
  !(hasSub locPat e.method.data) &&
    (match e.module with
     | none => true
     | some m => !(hasSub locPat m.data))

theorem statement_clean (compiler : Nat) (e : ExportInfo)
    (h : export_clean e = true) :
    hasSub locPat (get_export_statement compiler e).data = false := by
  obtain ⟨meth, mo, b⟩ := e
  cases mo with
  | none =>
    have hm : hasSub locPat meth.data = false := by
      have h' : (!(hasSub locPat meth.data)) = true := by
        simpa only [export_clean, Bool.and_true] using h
      simpa using h'
    cases b with
    | true => exact hm
    | false =>
      show hasSub locPat ((meth ++ "_").data) = false
      rw [String.data_append, show (("_" : String).data) = '_' :: ([] : List Char) from rfl]
      exact hasSub_append_sep locPat '_' (by decide) meth.data [] hm (by decide)
  | some m =>
    have h' : (!(hasSub locPat meth.data)) = true ∧ (!(hasSub locPat m.data)) = true := by
      simpa only [export_clean, Bool.and_eq_true] using h
    have hm : hasSub locPat meth.data = false := by simpa using h'.1
    have hmod : hasSub locPat m.data = false := by simpa using h'.2
    show hasSub locPat ((if compiler = GNU then "__" ++ m ++ "_MOD_" ++ meth
      else if compiler = IFORT then m ++ "_mp_" ++ meth ++ "_"
      else if compiler = PGF90 then m ++ "_" ++ meth ++ "_"
      else if compiler = GENERIC then "*" ++ meth ++ "*"
      else "").data) = false
    by_cases h1 : compiler = GNU
    · rw [if_pos h1, String.data_append, String.data_append, String.data_append,
        List.append_assoc, List.append_assoc]
      rw [locPat_peel_all "__".data (m.data ++ ("_MOD_".data ++ meth.data)) (by decide)]
      rw [show ("_MOD_".data ++ meth.data : List Char)
        = '_' :: ("MOD_".data ++ meth.data) from rfl]
      refine hasSub_append_sep locPat '_' (by decide) m.data _ hmod ?_
      rw [show ('_' :: ("MOD_".data ++ meth.data) : List Char)
        = "_MOD_".data ++ meth.data from rfl]
      rw [locPat_peel_all "_MOD_".data meth.data (by decide)]
      exact hm
    rw [if_neg h1]
    by_cases h2 : compiler = IFORT
    · rw [if_pos h2, String.data_append, String.data_append, String.data_append,
        List.append_assoc, List.append_assoc]
      rw [show ("_mp_".data ++ (meth.data ++ "_".data) : List Char)
        = '_' :: ("mp_".data ++ (meth.data ++ "_".data)) from rfl]
      refine hasSub_append_sep locPat '_' (by decide) m.data _ hmod ?_
      rw [show ('_' :: ("mp_".data ++ (meth.data ++ "_".data)) : List Char)
        = "_mp_".data ++ (meth.data ++ "_".data) from rfl]
      rw [locPat_peel_all "_mp_".data (meth.data ++ "_".data) (by decide)]
      rw [show (("_" : String).data) = '_' :: ([] : List Char) from rfl]
      exact hasSub_append_sep locPat '_' (by decide) meth.data [] hm (by decide)
    rw [if_neg h2]
    by_cases h3 : compiler = PGF90
    · rw [if_pos h3, String.data_append, String.data_append, String.data_append,
        List.append_assoc, List.append_assoc]
      rw [show ("_".data ++ (meth.data ++ "_".data) : List Char)
        = '_' :: (meth.data ++ "_".data) from rfl]
      refine hasSub_append_sep locPat '_' (by decide) m.data _ hmod ?_
      rw [show ('_' :: (meth.data ++ "_".data) : List Char)
        = ['_'] ++ (meth.data ++ "_".data) from rfl]
      rw [locPat_peel_all ['_'] (meth.data ++ "_".data) (by decide)]
      rw [show (("_" : String).data) = '_' :: ([] : List Char) from rfl]
      exact hasSub_append_sep locPat '_' (by decide) meth.data [] hm (by decide)
    rw [if_neg h3]
    by_cases h4 : compiler = GENERIC
    · rw [if_pos h4, String.data_append, String.data_append, List.append_assoc]
      rw [show (("*" : String).data) = ['*'] from rfl]
      rw [locPat_peel_all ['*'] (meth.data ++ ['*']) (by decide)]
      rw [show (['*'] : List Char) = '*' :: [] from rfl]
      exact hasSub_append_sep locPat '*' (by decide) meth.data [] hm (by decide)
    rw [if_neg h4]
    decide

theorem header_clang_clean (now : String) (h : hasSub locPat now.data = false) :
    hasSub locPat (get_export_header LD_CLANG now).data = false := by
  have hfac : get_export_header LD_CLANG now =
      ("# File generated by thermopack/addon/pyUtils/exports/export_list.py\n# Time stamp: "
        ++ now) ++ "\n# Explicit list of symbols to be exported" :=
    header_factor LD_CLANG now
  rw [hfac, String.data_append, String.data_append, List.append_assoc]
  refine hasSub_append_tails locPat _ _ (by decide) (by decide) ?_
  rw [show (("\n# Explicit list of symbols to be exported" : String).data)
    = '\n' :: ("# Explicit list of symbols to be exported" : String).data from rfl]
  exact hasSub_append_sep locPat '\n' (by decide) now.data _ h (by decide)

theorem header_msvc_clean (now : String) (h : hasSub locPat now.data = false) :
    hasSub locPat (get_export_header LD_MSVC now).data = false := by
  have hfac : get_export_header LD_MSVC now =
      ("# File generated by thermopack/addon/pyUtils/exports/export_list.py\n# Time stamp: "
        ++ now) ++ "\n; @NAME@.def : Declares the module parameters.\n\nLIBRARY\n\nEXPORTS" :=
    header_factor LD_MSVC now
  rw [hfac, String.data_append, String.data_append, List.append_assoc]
  refine hasSub_append_tails locPat _ _ (by decide) (by decide) ?_
  rw [show (("\n; @NAME@.def : Declares the module parameters.\n\nLIBRARY\n\nEXPORTS" : String).data)
    = '\n' :: ("; @NAME@.def : Declares the module parameters.\n\nLIBRARY\n\nEXPORTS" : String).data from rfl]
  exact hasSub_append_sep locPat '\n' (by decide) now.data _ h (by decide)

set_option maxRecDepth 8000 in
/-- C5: for every resolved-name sequence, the GCC-ld manifest decorates
each body line as `"\t" + name + ";"` and always ends with the literal
footer `  local: *;      # hide everything else\n\x7d;` (followed by the
terminating newline the writer appends to every line), and the
declaration `(thermopack_init_c, module absent, isBindC true)` yields
exactly the body line `"\tthermopack_init_c;"`; the Clang-ld and MSVC
manifests decorate each body line as `"\t" + name` with no terminator and
(provided the timestamp and the declared names do not themselves contain
the substring `local:`, as none of the registered names do) contain no
`local:` text on any line. -/
theorem linker_decoration_and_footer
    (compiler : Nat) (now : String) (st : List ExportInfo) :
    write_def_lines compiler LD_GCC now st =
      get_export_header LD_GCC now
        :: st.map (fun e => "\t" ++ get_export_statement compiler e ++ ";")
        ++ ["\n  local: *;      # hide everything else\n\x7d;"] ∧
    (∃ p : String, write_def_content compiler LD_GCC now st
        = p ++ "  local: *;      # hide everything else\n\x7d;\n") ∧
    write_def_lines compiler LD_GCC now [⟨"thermopack_init_c", none, true⟩] =
      [get_export_header LD_GCC now, "\tthermopack_init_c;",
       "\n  local: *;      # hide everything else\n\x7d;"] ∧
    write_def_lines compiler LD_CLANG now st =
      get_export_header LD_CLANG now
        :: st.map (fun e => "\t" ++ get_export_statement compiler e) ∧
    write_def_lines compiler LD_MSVC now st =
      get_export_header LD_MSVC now
        :: st.map (fun e => "\t" ++ get_export_statement compiler e) ∧
    (hasSub locPat now.data = false →
      st.all export_clean = true →
      (∀ line ∈ write_def_lines compiler LD_CLANG now st,
        hasSub locPat line.data = false) ∧
      (∀ line ∈ write_def_lines compiler LD_MSVC now st,
        hasSub locPat line.data = false)) ∧
    exports.all export_clean = true := by
  have hgcc : write_def_lines compiler LD_GCC now st =
      get_export_header LD_GCC now
        :: st.map (fun e => "\t" ++ get_export_statement compiler e ++ ";")
        ++ ["\n  local: *;      # hide everything else\n\x7d;"] := by
    show get_export_header LD_GCC now
      :: manifest_body compiler LD_GCC st ++ footer_lines LD_GCC = _
    rw [manifest_body_gcc]
    rfl
  have hcl : write_def_lines compiler LD_CLANG now st =
      get_export_header LD_CLANG now
        :: st.map (fun e => "\t" ++ get_export_statement compiler e) := by
    show get_export_header LD_CLANG now
      :: manifest_body compiler LD_CLANG st ++ footer_lines LD_CLANG = _
    rw [manifest_body_clang, show footer_lines LD_CLANG = [] from rfl, List.append_nil]
  have hms : write_def_lines compiler LD_MSVC now st =
      get_export_header LD_MSVC now
        :: st.map (fun e => "\t" ++ get_export_statement compiler e) := by
    show get_export_header LD_MSVC now
      :: manifest_body compiler LD_MSVC st ++ footer_lines LD_MSVC = _
    rw [manifest_body_msvc, show footer_lines LD_MSVC = [] from rfl, List.append_nil]
  have hbody : ∀ (hclean : st.all export_clean = true) (e : ExportInfo), e ∈ st →
      hasSub locPat (("\t" ++ get_export_statement compiler e).data) = false := by
    intro hclean e he
    rw [String.data_append, show (("\t" : String).data) = ['\t'] from rfl]
    rw [locPat_peel_all ['\t'] (get_export_statement compiler e).data (by decide)]
    exact statement_clean compiler e (List.all_eq_true.mp hclean e he)
  refine ⟨hgcc, ?_, by rfl, hcl, hms, ?_, by decide⟩
  · refine ⟨content_of_lines
      (get_export_header LD_GCC now
        :: st.map (fun e => "\t" ++ get_export_statement compiler e ++ ";")) ++ "\n", ?_⟩
    show content_of_lines (write_def_lines compiler LD_GCC now st) = _
    rw [hgcc,
      show (get_export_header LD_GCC now
          :: st.map (fun e => "\t" ++ get_export_statement compiler e ++ ";")
          ++ ["\n  local: *;      # hide everything else\n\x7d;"])
        = (get_export_header LD_GCC now
          :: st.map (fun e => "\t" ++ get_export_statement compiler e ++ ";"))
          ++ ["\n  local: *;      # hide everything else\n\x7d;"] from rfl,
      content_concat]
    rw [show ("\n  local: *;      # hide everything else\n\x7d;" ++ "\n" : String)
      = "\n" ++ "  local: *;      # hide everything else\n\x7d;\n" from rfl]
    rw [← String.append_assoc]
  · intro hnow hclean
    constructor
    · intro line hline
      rw [hcl] at hline
      rcases List.mem_cons.mp hline with h | h
      · rw [h]
        exact header_clang_clean now hnow
      · obtain ⟨e, he, rfl⟩ := List.mem_map.mp h
        exact hbody hclean e he
    · intro line hline
      rw [hms] at hline
      rcases List.mem_cons.mp hline with h | h
      · rw [h]
        exact header_msvc_clean now hnow
      · obtain ⟨e, he, rfl⟩ := List.mem_map.mp h
        exact hbody hclean e he

/-- Witness for C5 at a concrete compiler, timestamp and registry: the
Clang-ld manifest line for the module declaration `eos.zfac` contains no
`local:` text. -/
theorem linker_decoration_and_footer_witness :
    hasSub locPat ("\t" ++ get_export_statement GENERIC ⟨"zfac", some "eos", false⟩).data
      = false :=
  ((linker_decoration_and_footer GENERIC "2024-01-01T00:00:00"
      [⟨"zfac", some "eos", false⟩]).2.2.2.2.2.1 (by decide) (by decide)).1
    ("\t" ++ get_export_statement GENERIC ⟨"zfac", some "eos", false⟩) (by decide)

/-- C6: for every registry sequence and every recognized linker (with any
compiler), the manifest body is exactly the map of the per-declaration
decoration over the registry: one line per declaration, in registry
order, with duplicates preserved — no deduplication and no reordering —
and the emitted manifest is the header, then this body, then the footer
lines. -/
theorem manifest_body_order
    (compiler linker : Nat) (now : String) (st : List ExportInfo)
    (h : linker = LD_GCC ∨ linker = LD_CLANG ∨ linker = LD_MSVC) :
    manifest_body compiler linker st =
      st.map (fun e =>
        if linker = LD_GCC then "\t" ++ get_export_statement compiler e ++ ";"
        else "\t" ++ get_export_statement compiler e) ∧
    write_def_lines compiler linker now st =
      get_export_header linker now :: manifest_body compiler linker st
        ++ footer_lines linker ∧
    (manifest_body compiler linker st).length = st.length := by
  have hmap : manifest_body compiler linker st =
      st.map (fun e =>
        if linker = LD_GCC then "\t" ++ get_export_statement compiler e ++ ";"
        else "\t" ++ get_export_statement compiler e) := by
    rcases h with rfl | rfl | rfl
    · exact manifest_body_gcc compiler st
    · exact manifest_body_clang compiler st
    · exact manifest_body_msvc compiler st
  exact ⟨hmap, rfl, by rw [hmap, List.length_map]⟩

/-- Witness for C6: a registry with the same bind-C declaration appended
twice yields exactly two identical Clang-ld body lines, in order. -/
theorem manifest_body_order_witness :
    manifest_body GNU LD_CLANG [⟨"a", none, true⟩, ⟨"a", none, true⟩]
      = ["\ta", "\ta"] := by
  have h := manifest_body_order GNU LD_CLANG "T"
    [⟨"a", none, true⟩, ⟨"a", none, true⟩] (Or.inr (Or.inl rfl))
  rw [h.1]
  rfl
